import Mathlib

/-!
Verification of the SatyaMitra claim-verification pipeline.

The definitions below are a shallow embedding of the Python sources
`app/agent.py` (the LangGraph pipeline) and `app/server.py` (the HTTP
endpoints).  Strings are modelled as `List Char`; the Python string
operations used by the code (`split`, `strip`, `startswith`, `replace`,
`upper`, substring test) are re-implemented with the same semantics.
External collaborators (the language-generation provider, web search,
page scraping) are modelled as an oracle record: the pipeline's control
flow and persistence effects are functions of the oracle's responses.
-/

namespace SatyaMitra

/-- Model of Python strings: a list of characters. -/
abbrev Str := List Char

/-- Python `s.startswith(p)`: `leadsWith p s` is true when `p` is an initial
segment of `s`. -/
def leadsWith : Str → Str → Bool
  | [], _ => true
  | _ :: _, [] => false
  | a :: as, b :: bs => a == b && leadsWith as bs

/-- Python `s.lstrip()` restricted to ASCII whitespace. -/
def pyStripLeft (s : Str) : Str := s.dropWhile Char.isWhitespace

/-- Python `s.rstrip()` restricted to ASCII whitespace. -/
def pyStripRight (s : Str) : Str := (s.reverse.dropWhile Char.isWhitespace).reverse

/-- Python `s.strip()` restricted to ASCII whitespace. -/
def pyStrip (s : Str) : Str := pyStripRight (pyStripLeft s)

/-- Locate the first occurrence of `sep` in a string: `findSplit sep s`
returns `some (before, after)` with `s = before ++ sep ++ after` for the
leftmost occurrence, and `none` when `sep` does not occur. -/
def findSplit (sep : Str) : Str → Option (Str × Str)
  | [] => if leadsWith sep [] then some ([], []) else none
  | c :: rest =>
    if leadsWith sep (c :: rest) then some ([], (c :: rest).drop sep.length)
    else
      match findSplit sep rest with
      | some (b, a) => some (c :: b, a)
      | none => none

/-- Python `p in s` (substring test). -/
def containsSub (p s : Str) : Bool := (findSplit p s).isSome

/-- Python `s.upper()` on ASCII data. -/
def upperChars (s : Str) : Str := s.map Char.toUpper

/-- Python `s.replace("**", "")`: remove the occurrences of `**`,
scanning left to right. -/
def removeStars : Str → Str
  | '*' :: '*' :: rest => removeStars rest
  | c :: rest => c :: removeStars rest
  | [] => []

/-- First whitespace-delimited word of a string (`s.split()[0]`, returning
`[]` when the string holds no word). -/
def firstWord (s : Str) : Str :=
  (s.dropWhile Char.isWhitespace).takeWhile (fun c => !c.isWhitespace)

/-- The part of `s` before the first occurrence of `sep`
(`s.split(sep)[0]`). -/
def beforeFirst (sep s : Str) : Str :=
  match findSplit sep s with
  | some (b, _) => b
  | none => s

/-- The part of `s` between the first and second occurrences of `sep`,
or after the first occurrence when there is no second one
(`s.split(sep)[1]`, `none` when `sep` does not occur). -/
def secondSegment (sep s : Str) : Option Str :=
  match findSplit sep s with
  | none => none
  | some (_, rest) => some (beforeFirst sep rest)

/-! Verdict parsing, from `reporter_node` in `app/agent.py` (lines
328-350): split the report on `---DETAILED_REPORT_START---`, strip the
summary part, split on `**Verdict:**` and take element 1, strip it, take
its first word, drop `**` markup, uppercase, and accept the result only
when it is one of the four verdict tokens; `UNVERIFIED` in every other
case (a raising step - the `[1]` index or `split()[0]` on an empty line -
is caught by the `try`/`except` and also yields the default). -/

def REPORT_DELIM : Str := "---DETAILED_REPORT_START---".data

def VERDICT_MARKER : Str := "**Verdict:**".data

/-- The four valid verdict tokens checked by `reporter_node`. -/
def validTokens : List Str :=
  ["TRUE".data, "FALSE".data, "MISLEADING".data, "UNVERIFIED".data]

/-- Embedding of the verdict-extraction block of `reporter_node`
(`app/agent.py` lines 328-350). -/
def extractVerdict (report : Str) : Str :=
  let ui := pyStrip (beforeFirst REPORT_DELIM report)
  match secondSegment VERDICT_MARKER ui with
  | none => "UNVERIFIED".data
  | some seg =>
    let line := pyStrip seg
    if line = [] then "UNVERIFIED".data
    else
      let w := upperChars (removeStars (firstWord line))
      if validTokens.contains w then w else "UNVERIFIED".data

/-- Modelled from the spec words of the parse step (spec section 4.5 item 2
and claim C4): the first whitespace-delimited word after the
`**Verdict:**` marker in the section before the report delimiter, with
`**` markup stripped and uppercased; `none` when the marker is absent or
no word follows it. -/
def specFirstWordAfterMarker (report : Str) : Option Str :=
  match findSplit VERDICT_MARKER (beforeFirst REPORT_DELIM report) with
  | none => none
  | some (_, rest) =>
    if firstWord rest = [] then none
    else some (upperChars (removeStars (firstWord rest)))

/-- The amended word selection: the first whitespace-delimited word of the
segment of the (stripped) summary section lying between the first and
second occurrences of the `**Verdict:**` marker - the whole remainder when
the marker occurs only once - with `**` markup stripped and uppercased. -/
def amendedVerdictWord (report : Str) : Option Str :=
  match secondSegment VERDICT_MARKER (pyStrip (beforeFirst REPORT_DELIM report)) with
  | none => none
  | some seg =>
    if firstWord seg = [] then none
    else some (upperChars (removeStars (firstWord seg)))

/-- The amended parse contract: the amended candidate word when it is one
of the four valid tokens, `UNVERIFIED` in every other case. -/
def amendedParsedVerdict (report : Str) : Str :=
  match amendedVerdictWord report with
  | some w => if validTokens.contains w then w else "UNVERIFIED".data
  | none => "UNVERIFIED".data

/-! Auxiliary list lemmas relating Python `strip` to word extraction. -/

theorem takeWhile_append_of_all {p : Char → Bool} {t : Str}
    (ht : ∀ c ∈ t, p c = true) :
    ∀ a : Str,
      List.takeWhile (fun c => !p c) (a ++ t) = List.takeWhile (fun c => !p c) a := by
  intro a
  induction a with
  | nil =>
    cases t with
    | nil => rfl
    | cons c t' =>
      have hc : p c = true := ht c (by simp)
      simp [List.takeWhile_cons, hc]
  | cons c a' ih =>
    simp only [List.cons_append, List.takeWhile_cons, ih]

theorem dropWhile_all {p : Char → Bool} :
    ∀ {t : Str}, (∀ c ∈ t, p c = true) → List.dropWhile p t = [] := by
  intro t
  induction t with
  | nil => intro _; rfl
  | cons c t' ih =>
    intro ht
    have hc : p c = true := ht c (by simp)
    simp only [List.dropWhile_cons, hc, if_true]
    exact ih (fun d hd => ht d (by simp [hd]))

theorem firstWord_append_of_all {t : Str}
    (ht : ∀ c ∈ t, c.isWhitespace = true) (a : Str) :
    firstWord (a ++ t) = firstWord a := by
  induction a with
  | nil =>
    simp only [List.nil_append, firstWord, dropWhile_all ht]
    rfl
  | cons c a' ih =>
    by_cases hc : c.isWhitespace = true
    · simp only [firstWord, List.cons_append, List.dropWhile_cons, hc, if_true] at ih ⊢
      exact ih
    · have hc' : c.isWhitespace = false := by
        cases h : c.isWhitespace with
        | true => exact absurd h hc
        | false => rfl
      simp [firstWord, List.cons_append, List.dropWhile_cons, hc',
        List.takeWhile_cons, takeWhile_append_of_all ht a']

theorem stripRight_decomp (u : Str) :
    u = pyStripRight u ++ (u.reverse.takeWhile Char.isWhitespace).reverse := by
  conv_lhs =>
    rw [← List.reverse_reverse u,
      ← List.takeWhile_append_dropWhile (p := Char.isWhitespace) (l := u.reverse)]
  rw [List.reverse_append]
  rfl

theorem firstWord_stripRight (u : Str) :
    firstWord (pyStripRight u) = firstWord u := by
  conv_rhs => rw [stripRight_decomp u]
  refine (firstWord_append_of_all ?_ (pyStripRight u)).symm
  intro c hc
  rw [List.mem_reverse] at hc
  exact List.mem_takeWhile_imp hc

theorem dropWhile_idem (p : Char → Bool) (s : Str) :
    List.dropWhile p (List.dropWhile p s) = List.dropWhile p s := by
  induction s with
  | nil => rfl
  | cons c s' ih =>
    by_cases hc : p c = true
    · simp only [List.dropWhile_cons, hc, if_true]
      exact ih
    · have hc' : p c = false := by
        cases h : p c with
        | true => exact absurd h hc
        | false => rfl
      simp [List.dropWhile_cons, hc']

theorem firstWord_pyStrip (s : Str) : firstWord (pyStrip s) = firstWord s := by
  unfold pyStrip pyStripLeft
  rw [firstWord_stripRight]
  unfold firstWord
  rw [dropWhile_idem]

theorem firstWord_nil_of_pyStrip_nil {s : Str} (h : pyStrip s = []) :
    firstWord s = [] := by
  have := firstWord_pyStrip s
  rw [h] at this
  exact this.symm

theorem extractVerdict_eq_amended (report : Str) :
    extractVerdict report = amendedParsedVerdict report := by
  unfold extractVerdict amendedParsedVerdict amendedVerdictWord
  cases hseg : secondSegment VERDICT_MARKER (pyStrip (beforeFirst REPORT_DELIM report)) with
  | none => simp [hseg]
  | some seg =>
    simp only [hseg]
    have hfw := firstWord_pyStrip seg
    by_cases hline : pyStrip seg = []
    · have hw : firstWord seg = [] := firstWord_nil_of_pyStrip_nil hline
      simp [hline, hw]
    · by_cases hw : firstWord seg = []
      · rw [hw] at hfw
        simp [hline, hw, hfw]
        decide
      · simp [hline, hw, hfw]

/-- The concrete report on which the literal claim C4 and the code part
ways: the `**Verdict:**` marker occurs twice, with the second occurrence
glued to the word following the first. -/
def c4report : Str := "**Verdict:**FALSE**Verdict:**".data

/-- C4 counterexample: on `c4report` the first whitespace-delimited word
after the `**Verdict:**` marker, with markup stripped and uppercased, is
`FALSEVERDICT:`, which is not a valid token, so the claim as stated says
the parse returns `UNVERIFIED`; the code (which takes the word from the
segment between the first and second marker occurrences) returns `FALSE`
instead. -/
theorem C4_counterexample :
    specFirstWordAfterMarker c4report = some "FALSEVERDICT:".data ∧
    validTokens.contains "FALSEVERDICT:".data = false ∧
    extractVerdict c4report = "FALSE".data ∧
    "FALSE".data ≠ "UNVERIFIED".data := by decide

/-- C4 (amended): for every report string the parse step returns the first
whitespace-delimited word of the segment between the first and second
occurrences of the `**Verdict:**` marker in the section before the
`---DETAILED_REPORT_START---` delimiter (the whole remainder when the
marker occurs only once), with markup stripped and uppercased, whenever
that word is one of TRUE/FALSE/MISLEADING/UNVERIFIED; in every other case
(marker absent, word not a valid token, or any parsing step failing) it
returns UNVERIFIED and never raises - the result is always one of the four
tokens.  In particular a report containing `**Verdict:** FALSE **more
text**` parses to FALSE, and a report with no marker parses to
UNVERIFIED. -/
theorem C4_amended :
    (∀ report : Str,
        extractVerdict report = amendedParsedVerdict report ∧
        validTokens.contains (extractVerdict report) = true) ∧
    extractVerdict "**Verdict:** FALSE **more text**".data = "FALSE".data ∧
    extractVerdict "a report with no marker at all".data = "UNVERIFIED".data := by
  refine ⟨fun report => ⟨extractVerdict_eq_amended report, ?_⟩, by decide, by decide⟩
  rw [extractVerdict_eq_amended report]
  unfold amendedParsedVerdict
  cases amendedVerdictWord report with
  | none => decide
  | some w =>
    by_cases hw : w ∈ validTokens
    · simp [hw]
    · simp [hw]
      decide

/-! Domain normalization, from `urlparse(url).netloc.replace("www.", "")`
(`app/agent.py`, `check_internal_db` and `update_internal_db`):
`urlparse` strips a leading `scheme:` when present, reads a network
location only when the remainder starts with `//`, and stops it at the
first `/`, `?` or `#`; the Python `replace` then removes every occurrence
of `www.`. -/

def isSchemeChar (c : Char) : Bool := c.isAlphanum || c == '+' || c == '-' || c == '.'

/-- Drop a leading `scheme:` from a URL, as `urllib.parse.urlsplit` does. -/
def schemeRest (url : Str) : Str :=
  let pre := url.takeWhile (fun c => c != ':')
  if pre.length < url.length && !pre.isEmpty && pre.all isSchemeChar then
    url.drop (pre.length + 1)
  else url

/-- `urlparse(url).netloc`. -/
def netlocOf (url : Str) : Str :=
  let rest := schemeRest url
  if leadsWith "//".data rest then
    (rest.drop 2).takeWhile (fun c => !(c == '/' || c == '?' || c == '#'))
  else []

/-- Python `s.replace("www.", "")`: remove every occurrence of `www.`. -/
def removeWWW : Str → Str
  | 'w' :: 'w' :: 'w' :: '.' :: rest => removeWWW rest
  | c :: rest => c :: removeWWW rest
  | [] => []

/-- The normalized domain a URL is keyed by:
`urlparse(url).netloc.replace("www.", "")`. -/
def normDomain (url : Str) : Str := removeWWW (netlocOf url)

/-! The reputation cache (`domain_reputation` table, primary key `domain`),
read by `check_internal_db` and written by `update_internal_db` in
`app/agent.py`. -/

structure RepRecord where
  status : Str
  confidence : Nat
deriving DecidableEq

abbrev RepDB := List (Str × RepRecord)

/-- Point lookup by domain (`SELECT status, confidence FROM
domain_reputation WHERE domain = ?`). -/
def dbLookup (db : RepDB) (domain : Str) : Option RepRecord :=
  (db.find? (fun p => p.1 == domain)).map (fun p => p.2)

/-- `INSERT OR REPLACE` on the primary key `domain`: the new row entirely
replaces any prior row for that domain. -/
def dbUpsert (db : RepDB) (domain : Str) (rec : RepRecord) : RepDB :=
  (domain, rec) :: db.filter (fun p => p.1 != domain)

/-- The verdict-to-(status, confidence) table of `update_internal_db`
(`app/agent.py` lines 73-80): a dictionary lookup on `verdict.upper()`
with default `("UNVERIFIED", 50)`. -/
def status_map (verdict : Str) : Str × Nat :=
  let v := upperChars verdict
  if v = "TRUE".data then ("TRUSTED".data, 90)
  else if v = "FALSE".data then ("PROPAGANDA".data, 95)
  else if v = "MISLEADING".data then ("UNVERIFIED".data, 70)
  else if v = "UNVERIFIED".data then ("UNVERIFIED".data, 50)
  else ("UNVERIFIED".data, 50)

/-- Embedding of `update_internal_db(url, verdict, original_claim)`
(`app/agent.py` lines 61-91).  The `original_claim` argument is accepted
and unused, exactly as in the source; an empty url or verdict makes the
function return without writing. -/
def update_internal_db (db : RepDB) (url verdict _original_claim : Str) : RepDB :=
  if url.isEmpty || verdict.isEmpty then db
  else dbUpsert db (normDomain url) ⟨(status_map verdict).1, (status_map verdict).2⟩

/-- The sentence `check_internal_db` formats on a cache hit. -/
def recordMessage (domain : Str) (rec : RepRecord) : Str :=
  "INTERNAL RECORD FOUND: ".data ++ domain ++ " is confirmed as **".data
    ++ rec.status ++ "** (Confidence: ".data ++ (Nat.repr rec.confidence).data
    ++ "%).".data

/-- Embedding of `check_internal_db(url)` (`app/agent.py` lines 44-59):
normalize the domain, point-query the table, format the hit sentence;
`none` when the row is absent (storage failures are caught and also give
`None`). -/
def check_internal_db (db : RepDB) (url : Str) : Option Str :=
  (dbLookup db (normDomain url)).map (fun rec => recordMessage (normDomain url) rec)

theorem find?_filter {α : Type} (q keep : α → Bool)
    (h : ∀ x, q x = true → keep x = true) :
    ∀ l : List α, (l.filter keep).find? q = l.find? q := by
  intro l
  induction l with
  | nil => rfl
  | cons x l' ih =>
    by_cases hk : keep x = true
    · simp only [List.filter_cons, hk, if_true]
      by_cases hq : q x = true
      · simp [List.find?_cons, hq]
      · have hq' : q x = false := by
          cases hqq : q x with
          | true => exact absurd hqq hq
          | false => rfl
        simp [List.find?_cons, hq', ih]
    · have hk' : keep x = false := by
        cases hkk : keep x with
        | true => exact absurd hkk hk
        | false => rfl
      have hq' : q x = false := by
        cases hqq : q x with
        | true => exact absurd (h x hqq) (by simp [hk'])
        | false => rfl
      simp [List.filter_cons, hk', List.find?_cons, hq', ih]

theorem dbLookup_upsert_self (db : RepDB) (k : Str) (rec : RepRecord) :
    dbLookup (dbUpsert db k rec) k = some rec := by
  simp [dbLookup, dbUpsert, List.find?_cons]

theorem dbLookup_upsert_other (db : RepDB) (k d : Str) (rec : RepRecord)
    (h : d ≠ k) :
    dbLookup (dbUpsert db k rec) d = dbLookup db d := by
  unfold dbLookup dbUpsert
  have hk : (k == d) = false := by
    cases hkk : k == d with
    | true => exact absurd (by exact (beq_iff_eq.mp hkk).symm) h
    | false => rfl
  rw [List.find?_cons]
  simp only [hk]
  have hfun : ∀ x : Str × RepRecord, (x.1 == d) = true → (x.1 != k) = true := by
    intro x hx
    have hx1 : x.1 = d := beq_iff_eq.mp hx
    simp [bne, hx1]
    intro hdk
    exact h hdk
  exact congrArg (Option.map (fun p => p.2))
    (find?_filter (fun p => p.1 == d) (fun p => p.1 != k) hfun db)

/-- C5: for every non-empty URL and non-empty verdict token, `upsert`
writes the reputation record keyed by the normalized domain (scheme and
`www.` stripped, i.e. `normDomain`) with the (status, confidence) pair of
the fixed table TRUE -> (TRUSTED, 90), FALSE -> (PROPAGANDA, 95),
MISLEADING -> (UNVERIFIED, 70), UNVERIFIED -> (UNVERIFIED, 50), any other
token -> (UNVERIFIED, 50), entirely overwriting any prior record for that
domain and leaving every other domain untouched; upserting TRUE for
`https://www.example.com` then looking up `example.com` yields
(TRUSTED, 90), and a subsequent upsert of FALSE for the same URL
overwrites the record to (PROPAGANDA, 95). -/
theorem C5_upsert_contract :
    (∀ (db : RepDB) (url verdict claimArg : Str), url ≠ [] → verdict ≠ [] →
        dbLookup (update_internal_db db url verdict claimArg) (normDomain url)
          = some ⟨(status_map verdict).1, (status_map verdict).2⟩) ∧
    (∀ (db : RepDB) (url verdict claimArg d : Str), d ≠ normDomain url →
        dbLookup (update_internal_db db url verdict claimArg) d = dbLookup db d) ∧
    status_map "TRUE".data = ("TRUSTED".data, 90) ∧
    status_map "FALSE".data = ("PROPAGANDA".data, 95) ∧
    status_map "MISLEADING".data = ("UNVERIFIED".data, 70) ∧
    status_map "UNVERIFIED".data = ("UNVERIFIED".data, 50) ∧
    (∀ v : Str, validTokens.contains (upperChars v) = false →
        status_map v = ("UNVERIFIED".data, 50)) ∧
    dbLookup (update_internal_db [] "https://www.example.com".data "TRUE".data [])
        "example.com".data = some ⟨"TRUSTED".data, 90⟩ ∧
    dbLookup
        (update_internal_db
          (update_internal_db [] "https://www.example.com".data "TRUE".data [])
          "https://www.example.com".data "FALSE".data [])
        "example.com".data = some ⟨"PROPAGANDA".data, 95⟩ := by
  refine ⟨?_, ?_, by decide, by decide, by decide, by decide, ?_, by decide, by decide⟩
  · intro db url verdict claimArg hu hv
    unfold update_internal_db
    have hu' : url.isEmpty = false := by simp [hu]
    have hv' : verdict.isEmpty = false := by simp [hv]
    simp only [hu', hv', Bool.or_self, if_false, Bool.false_or]
    exact dbLookup_upsert_self db (normDomain url) _
  · intro db url verdict claimArg d hd
    unfold update_internal_db
    by_cases hg : (url.isEmpty || verdict.isEmpty) = true
    · simp [hg]
    · have hg' : (url.isEmpty || verdict.isEmpty) = false := by
        cases hgg : url.isEmpty || verdict.isEmpty with
        | true => exact absurd hgg hg
        | false => rfl
      simp only [hg', if_false, Bool.false_eq_true]
      exact dbLookup_upsert_other db (normDomain url) d _ hd
  · intro v hv
    simp only [validTokens] at hv
    simp at hv
    unfold status_map
    simp [hv.1, hv.2.1, hv.2.2.1, hv.2.2.2]

/-- C5 witness: the general upsert-lookup part of `C5_upsert_contract`
instantiated at a concrete URL and verdict. -/
theorem C5_witness :
    dbLookup (update_internal_db [] "https://www.bbc.com/news".data "TRUE".data "claim".data)
        (normDomain "https://www.bbc.com/news".data)
      = some ⟨(status_map "TRUE".data).1, (status_map "TRUE".data).2⟩ :=
  C5_upsert_contract.1 [] "https://www.bbc.com/news".data "TRUE".data "claim".data
    (by decide) (by decide)

/-! The Critique Loop: `skeptic_node` in `app/agent.py` (lines 257-290),
together with the cache-hit test shared by `router_after_db` (lines
424-428): `state.get("domain_status") and "INTERNAL RECORD FOUND" in
state["domain_status"]`. -/

/-- The cache-hit test on `domain_status`: the value is set (and
non-empty) and contains the substring `INTERNAL RECORD FOUND`. -/
def dsMatch (ds : Option Str) : Bool :=
  match ds with
  | none => false
  | some s => !s.isEmpty && containsSub "INTERNAL RECORD FOUND".data s

/-- Embedding of `skeptic_node`: given `domain_status`, the provider's
judgment string and the current `revision_count`, it returns
`(is_verified, revision_count, appended message)`.  The judgment is
stripped (`decision.content.strip()`) before the
`startswith("REJECTED")` test. -/
def skeptic_node (ds : Option Str) (decision : Str) (retries : Nat) :
    Bool × Nat × Str :=
  if dsMatch ds then
    (true, retries,
      "Internal Match (".data ++ (ds.getD []) ++ "). Auto-Approved.".data)
  else
    let dt := pyStrip decision
    if leadsWith "REJECTED".data dt && decide (retries < 1) then
      (false, retries + 1, "Critique: ".data ++ dt)
    else
      (true, retries, "Evidence accepted. Proceeding to final report.".data)

/-- C3 counterexample: the judgment `" REJECTED too vague"` (note the
leading space) does not start with `REJECTED`, so the claim as stated
places it in the "every other case" bucket and predicts
`isVerified = true` with `revisionCount` unchanged; the code strips the
judgment first and therefore takes the rejection branch, returning
`isVerified = false` with `revisionCount` incremented to 1. -/
theorem C3_counterexample :
    leadsWith "REJECTED".data " REJECTED too vague".data = false ∧
    (skeptic_node none " REJECTED too vague".data 0).1 = false ∧
    (skeptic_node none " REJECTED too vague".data 0).2.1 = 1 := by decide

/-- C3 (amended): for every critique invocation without a reputation-cache
hit, if the provider's judgment - with surrounding whitespace stripped -
starts with REJECTED and revisionCount < 1, the critique returns
`isVerified = false` with `revisionCount` incremented by 1; in every other
case (stripped judgment not starting with REJECTED, or REJECTED with the
retry budget exhausted) it returns `isVerified = true` with
`revisionCount` unchanged. -/
theorem C3_amended (ds : Option Str) (decision : Str) (retries : Nat)
    (hds : dsMatch ds = false) :
    (leadsWith "REJECTED".data (pyStrip decision) = true → retries < 1 →
        (skeptic_node ds decision retries).1 = false ∧
        (skeptic_node ds decision retries).2.1 = retries + 1) ∧
    ((leadsWith "REJECTED".data (pyStrip decision) = false ∨ 1 ≤ retries) →
        (skeptic_node ds decision retries).1 = true ∧
        (skeptic_node ds decision retries).2.1 = retries) := by
  constructor
  · intro hlead hr
    simp [skeptic_node, hds, hlead, hr]
  · intro hother
    rcases hother with hlead | hr
    · simp [skeptic_node, hds, hlead]
    · have hr' : ¬ retries < 1 := by omega
      simp [skeptic_node, hds, hr']

/-- C3 witness: `C3_amended` instantiated at a concrete rejected judgment
with the retry budget available, and at a concrete approved judgment. -/
theorem C3_witness :
    ((skeptic_node none "REJECTED weak sourcing".data 0).1 = false ∧
      (skeptic_node none "REJECTED weak sourcing".data 0).2.1 = 1) ∧
    ((skeptic_node none "APPROVED".data 0).1 = true ∧
      (skeptic_node none "APPROVED".data 0).2.1 = 0) :=
  ⟨(C3_amended none "REJECTED weak sourcing".data 0 (by decide)).1 (by decide) (by decide),
    (C3_amended none "APPROVED".data 0 (by decide)).2 (Or.inl (by decide))⟩

/-! The Claim Extractor: `pre_processor_node` in `app/agent.py` (lines
159-190).  The scrape and the extraction request are external
collaborators; `scrapeOk` tells whether `scrape_website` returned content
(`scrape_website` catches every exception and returns an error marker, so
the node itself never raises), and `extraction` is the
language-generation provider's response to the extraction prompt. -/

def pre_processor_claim (scrapeOk : Bool) (extraction inputText inputType : Str) : Str :=
  if inputType == "url".data then
    (if scrapeOk then extraction else inputText)
  else if inputType == "image".data then
    "Analyze image for authenticity and context.".data
  else inputText

/-- C9 counterexample: for an image-type input the extracted claim is the
code's fixed string `"Analyze image for authenticity and context."`,
which differs from the claim's quoted string
`"analyze image for authenticity and context"` (capitalisation and the
trailing period). -/
theorem C9_counterexample :
    pre_processor_claim true "ext".data "raw".data "image".data
      = "Analyze image for authenticity and context.".data ∧
    "Analyze image for authenticity and context.".data
      ≠ "analyze image for authenticity and context".data := by decide

/-- C9 (amended): for every input, when `inputType = text` the claim is
the raw input unchanged; when `inputType = image` the claim is the fixed
instruction string `"Analyze image for authenticity and context."`; when
`inputType = url` and the page fetch fails the claim is the raw URL string
and no error is propagated (the function is total); on fetch success the
claim is the language-generation provider's extraction response
verbatim. -/
theorem C9_amended (scrapeOk : Bool) (extraction inputText inputType : Str) :
    (inputType = "text".data →
        pre_processor_claim scrapeOk extraction inputText inputType = inputText) ∧
    (inputType = "image".data →
        pre_processor_claim scrapeOk extraction inputText inputType
          = "Analyze image for authenticity and context.".data) ∧
    (inputType = "url".data → scrapeOk = false →
        pre_processor_claim scrapeOk extraction inputText inputType = inputText) ∧
    (inputType = "url".data → scrapeOk = true →
        pre_processor_claim scrapeOk extraction inputText inputType = extraction) := by
  refine ⟨?_, ?_, ?_, ?_⟩ <;> intro h
  · subst h; simp [pre_processor_claim]
  · subst h; simp [pre_processor_claim]
  · intro hs; subst h; subst hs; simp [pre_processor_claim]
  · intro hs; subst h; subst hs; simp [pre_processor_claim]

/-- C9 witness: `C9_amended` applied at each input modality. -/
theorem C9_witness :
    pre_processor_claim true "ext claim".data "raw text".data "text".data = "raw text".data ∧
    pre_processor_claim false "ext claim".data "https://a.com".data "url".data
      = "https://a.com".data ∧
    pre_processor_claim true "ext claim".data "https://a.com".data "url".data
      = "ext claim".data :=
  ⟨(C9_amended true "ext claim".data "raw text".data "text".data).1 rfl,
    (C9_amended false "ext claim".data "https://a.com".data "url".data).2.2.1 rfl rfl,
    (C9_amended true "ext claim".data "https://a.com".data "url".data).2.2.2 rfl rfl⟩

/-! The Verdict Reporter: `reporter_node` in `app/agent.py` (lines
292-412).  Rows of the `verification_history` table (the timestamp column
is generated by `datetime('now')` and left out of the model), and rows of
the `source_logs` table. -/

structure HistoryRow where
  user_id : Str
  claim_text : Str
  verdict : Str
  origin_city : Str
  origin_country : Str
  user_role : Str
deriving DecidableEq

structure SourceRow where
  claim_id : Nat
  source_type : Str
  source_identifier : Str
  verdict : Str
deriving DecidableEq

/-- The `source_logs` rows `reporter_node` appends for a run, in order
(`app/agent.py` lines 388-399): web search for text/url inputs, website
scraping with the resolved domain (or `N/A`) for url inputs, the vision
model for image inputs, and always the internal-DB check. -/
def sourceRows (cid : Nat) (inputType originalInput verdict : Str) : List SourceRow :=
  (if inputType == "url".data || inputType == "text".data then
    [⟨cid, "External Web".data, "DuckDuckGo/Search Engine".data, verdict⟩]
  else []) ++
  (if inputType == "url".data then
    [⟨cid, "Website Scraping".data,
      (if normDomain originalInput = [] then "N/A".data else normDomain originalInput),
      verdict⟩]
  else []) ++
  (if inputType == "image".data then
    [⟨cid, "AI Vision Model".data, "Gemini 2.5 Flash Vision".data, verdict⟩]
  else []) ++
  [⟨cid, "Internal DB".data, "satyamitra.db (MCP)".data, verdict⟩]

/-- The outcome of one `reporter_node` invocation: the reputation table,
history table and source-log table after the call, the parsed verdict,
and `result` - `some` of the report text appended to the conversation on
normal return, `none` when the unguarded history insert raised and the
exception propagated out of the node. -/
structure ReporterOut where
  db : RepDB
  hist : List HistoryRow
  slogs : List SourceRow
  verdict : Str
  result : Option Str
deriving DecidableEq

/-- Embedding of `reporter_node`.  In source order: parse the verdict from
the generated report; write the reputation record only when
`input_type = "url"`, `user_role = "admin"` and the original input starts
with `http://` or `https://` (`update_internal_db` itself catches storage
errors, so this step never raises); then, only when the report text is
non-empty, insert one history row - this insert is NOT wrapped in
`try`/`except`, so a storage failure (`insertOk = false`) propagates and
aborts the node after the reputation write already happened - and append
the source-log rows (`log_source` catches its own errors). -/
def reporter_node (inputType userRole originalInput claimText report : Str)
    (origin : Str × Str) (insertOk : Bool)
    (db : RepDB) (hist : List HistoryRow) (slogs : List SourceRow) : ReporterOut :=
  let verdict := extractVerdict report
  let db' :=
    if inputType == "url".data && userRole == "admin".data then
      if !originalInput.isEmpty &&
          (leadsWith "http://".data originalInput || leadsWith "https://".data originalInput) then
        update_internal_db db originalInput verdict claimText
      else db
    else db
  if report.isEmpty then ⟨db', hist, slogs, verdict, some report⟩
  else if !insertOk then ⟨db', hist, slogs, verdict, none⟩
  else
    let row : HistoryRow :=
      ⟨"anonymous".data, claimText, verdict, origin.1, origin.2, userRole⟩
    let cid := hist.length + 1
    ⟨db', hist ++ [row], slogs ++ sourceRows cid inputType originalInput verdict,
      verdict, some report⟩

/-- C6: for every URL-type reporter invocation with a non-admin role (and
a non-empty report over a functioning store), a history entry is produced,
the node returns normally, and the reputation table is unchanged; and in
general the reputation table changes only when `inputType = url`,
`userRole = admin` and the original input starts with `http://` or
`https://` - every other combination leaves it untouched and skips the
write silently. -/
theorem C6_write_gate (inputType userRole originalInput claimText report : Str)
    (origin : Str × Str) (insertOk : Bool)
    (db : RepDB) (hist : List HistoryRow) (slogs : List SourceRow) :
    (inputType = "url".data → userRole ≠ "admin".data →
        (reporter_node inputType userRole originalInput claimText report
            origin insertOk db hist slogs).db = db) ∧
    (inputType = "url".data → userRole ≠ "admin".data → report ≠ [] → insertOk = true →
        (reporter_node inputType userRole originalInput claimText report
            origin insertOk db hist slogs).hist
          = hist ++ [⟨"anonymous".data, claimText, extractVerdict report,
              origin.1, origin.2, userRole⟩] ∧
        (reporter_node inputType userRole originalInput claimText report
            origin insertOk db hist slogs).result = some report) ∧
    ((reporter_node inputType userRole originalInput claimText report
          origin insertOk db hist slogs).db ≠ db →
        inputType = "url".data ∧ userRole = "admin".data ∧
        (leadsWith "http://".data originalInput
          || leadsWith "https://".data originalInput) = true) := by
  refine ⟨?_, ?_, ?_⟩
  · intro hurl hrole
    have hr : (userRole == "admin".data) = false := by
      cases h : userRole == "admin".data with
      | true => exact absurd (beq_iff_eq.mp h) hrole
      | false => rfl
    unfold reporter_node
    simp only [hr, Bool.and_false, if_false, Bool.false_eq_true]
    split
    · rfl
    · split <;> rfl
  · intro hurl hrole hrep hok
    have hr : (userRole == "admin".data) = false := by
      cases h : userRole == "admin".data with
      | true => exact absurd (beq_iff_eq.mp h) hrole
      | false => rfl
    have hrep' : report.isEmpty = false := by simp [hrep]
    unfold reporter_node
    simp [hr, hrep', hok]
  · intro hdb
    by_cases hgate : (inputType == "url".data && userRole == "admin".data) = true
    · by_cases hwf : (!originalInput.isEmpty &&
          (leadsWith "http://".data originalInput
            || leadsWith "https://".data originalInput)) = true
      · have h1 : inputType = "url".data := beq_iff_eq.mp (Bool.and_elim_left hgate)
        have h2 : userRole = "admin".data := beq_iff_eq.mp (Bool.and_elim_right hgate)
        exact ⟨h1, h2, Bool.and_elim_right hwf⟩
      · exfalso
        apply hdb
        have hwf' : (!originalInput.isEmpty &&
            (leadsWith "http://".data originalInput
              || leadsWith "https://".data originalInput)) = false := by
          cases h : (!originalInput.isEmpty &&
              (leadsWith "http://".data originalInput
                || leadsWith "https://".data originalInput)) with
          | true => exact absurd h hwf
          | false => rfl
        unfold reporter_node
        simp only [hgate, if_true, hwf', Bool.false_eq_true, if_false]
        split
        · rfl
        · split <;> rfl
    · exfalso
      apply hdb
      have hgate' : (inputType == "url".data && userRole == "admin".data) = false := by
        cases h : (inputType == "url".data && userRole == "admin".data) with
        | true => exact absurd h hgate
        | false => rfl
      unfold reporter_node
      simp only [hgate', Bool.false_eq_true, if_false]
      split
      · rfl
      · split <;> rfl

/-- C6 witness: `C6_write_gate` applied to a concrete URL-type,
standard-role reporter invocation over a non-empty store. -/
theorem C6_witness :
    (reporter_node "url".data "standard".data "https://www.bbc.com/x".data
        "claim".data "**Verdict:** TRUE".data ("Mumbai".data, "India".data) true
        [("bbc.com".data, ⟨"TRUSTED".data, 95⟩)] [] []).db
      = [("bbc.com".data, ⟨"TRUSTED".data, 95⟩)] ∧
    (reporter_node "url".data "standard".data "https://www.bbc.com/x".data
        "claim".data "**Verdict:** TRUE".data ("Mumbai".data, "India".data) true
        [("bbc.com".data, ⟨"TRUSTED".data, 95⟩)] [] []).hist
      = [⟨"anonymous".data, "claim".data, extractVerdict "**Verdict:** TRUE".data,
          "Mumbai".data, "India".data, "standard".data⟩] :=
  ⟨(C6_write_gate "url".data "standard".data "https://www.bbc.com/x".data
      "claim".data "**Verdict:** TRUE".data ("Mumbai".data, "India".data) true
      [("bbc.com".data, ⟨"TRUSTED".data, 95⟩)] [] []).1 rfl (by decide),
    ((C6_write_gate "url".data "standard".data "https://www.bbc.com/x".data
      "claim".data "**Verdict:** TRUE".data ("Mumbai".data, "India".data) true
      [("bbc.com".data, ⟨"TRUSTED".data, 95⟩)] [] []).2.1 rfl (by decide)
      (by decide) rfl).1⟩

/-- C7 counterexample: a concrete text-type reporter invocation whose
report is non-empty (a verdict has been produced) but whose history
insert fails: the exception propagates (`result = none`, the run aborts
with an error instead of a verdict) and no history entry is appended -
refuting both that every run reaching the reporter appends exactly one
entry and that a persistence failure of the insert does not abort the
run. -/
theorem C7_counterexample :
    (reporter_node "text".data "standard".data "the claim".data "the claim".data
        "**Verdict:** TRUE\n\nSummary".data ("London".data, "UK".data) false
        [] [] []).result = none ∧
    (reporter_node "text".data "standard".data "the claim".data "the claim".data
        "**Verdict:** TRUE\n\nSummary".data ("London".data, "UK".data) false
        [] [] []).hist = [] := by decide

/-- C7 (amended): for every reporter invocation, over every userRole and
every inputType (including when the reputation write is blocked): when the
generated report is non-empty and the history insert succeeds, exactly one
`VerificationHistoryEntry` is appended and the node returns normally; when
the report is non-empty and the insert fails, the failure propagates and
aborts the run (no result, no entry) - the insert is not guarded by a
`try`/`except`; when the report is empty, no entry is appended and the
node returns normally. -/
theorem C7_amended (inputType userRole originalInput claimText report : Str)
    (origin : Str × Str) (insertOk : Bool)
    (db : RepDB) (hist : List HistoryRow) (slogs : List SourceRow) :
    (report ≠ [] → insertOk = true →
        (reporter_node inputType userRole originalInput claimText report
            origin insertOk db hist slogs).hist
          = hist ++ [⟨"anonymous".data, claimText, extractVerdict report,
              origin.1, origin.2, userRole⟩] ∧
        (reporter_node inputType userRole originalInput claimText report
            origin insertOk db hist slogs).result = some report) ∧
    (report ≠ [] → insertOk = false →
        (reporter_node inputType userRole originalInput claimText report
            origin insertOk db hist slogs).result = none ∧
        (reporter_node inputType userRole originalInput claimText report
            origin insertOk db hist slogs).hist = hist) ∧
    (report = [] →
        (reporter_node inputType userRole originalInput claimText report
            origin insertOk db hist slogs).hist = hist ∧
        (reporter_node inputType userRole originalInput claimText report
            origin insertOk db hist slogs).result = some report) := by
  refine ⟨?_, ?_, ?_⟩
  · intro hrep hok
    have hrep' : report.isEmpty = false := by simp [hrep]
    unfold reporter_node
    simp [hrep', hok]
  · intro hrep hok
    have hrep' : report.isEmpty = false := by simp [hrep]
    unfold reporter_node
    simp [hrep', hok]
  · intro hrep
    subst hrep
    unfold reporter_node
    simp

/-- C7 witness: the success case of `C7_amended` at a concrete image-type
invocation with a standard role. -/
theorem C7_witness :
    (reporter_node "image".data "standard".data "img".data
        "Analyze image for authenticity and context.".data
        "**Verdict:** MISLEADING".data ("New York".data, "USA".data) true
        [] [] []).hist
      = [⟨"anonymous".data, "Analyze image for authenticity and context.".data,
          extractVerdict "**Verdict:** MISLEADING".data,
          "New York".data, "USA".data, "standard".data⟩] ∧
    (reporter_node "image".data "standard".data "img".data
        "Analyze image for authenticity and context.".data
        "**Verdict:** MISLEADING".data ("New York".data, "USA".data) true
        [] [] []).result = some "**Verdict:** MISLEADING".data :=
  (C7_amended "image".data "standard".data "img".data
      "Analyze image for authenticity and context.".data
      "**Verdict:** MISLEADING".data ("New York".data, "USA".data) true
      [] [] []).1 (by decide) rfl

/-! The audit-delete endpoint: `delete_logs` in `app/server.py` (lines
261-287).  Rows of the `verification_history` table as the server sees
them (the generated `id` plus the payload), and the outcome of one
`POST /audit/delete` request. -/

structure VRow where
  id : Nat
  entry : HistoryRow
deriving DecidableEq

/-- The outcome of one audit-delete request: both tables after the call
and the HTTP response - `Except.error` is the 403 permission rejection,
`Except.ok n` the success reply whose message reports `n` deleted
rows (`cursor.rowcount`). -/
structure DeleteOut where
  hist : List VRow
  slogs : List SourceRow
  response : Except Str Nat

def PERMISSION_DENIED : Str :=
  "Permission Denied: Only Admin users can delete audit logs.".data

/-- Embedding of `delete_logs`: reject non-admin requesters before
touching the store; an empty id list is a no-op success; otherwise run
`DELETE FROM verification_history WHERE id IN (...)` - which touches no
other table, in particular not `source_logs` - and report the number of
deleted rows. -/
def delete_logs (user_role : Str) (ids : List Nat)
    (hist : List VRow) (slogs : List SourceRow) : DeleteOut :=
  if user_role ≠ "admin".data then
    ⟨hist, slogs, Except.error PERMISSION_DENIED⟩
  else if ids = [] then
    ⟨hist, slogs, Except.ok 0⟩
  else
    ⟨hist.filter (fun r => !ids.contains r.id), slogs,
      Except.ok ((hist.filter (fun r => ids.contains r.id)).length)⟩

theorem length_filter_contains (ids : List Nat) (l : List Nat) (hl : l.Nodup) :
    (l.filter (fun i => ids.contains i)).length
      = ((ids.dedup).filter (fun i => l.contains i)).length := by
  rw [← List.toFinset_card_of_nodup (hl.filter (fun i => ids.contains i)),
    ← List.toFinset_card_of_nodup ((List.nodup_dedup ids).filter (fun i => l.contains i)),
    List.toFinset_filter, List.toFinset_filter]
  congr 1
  ext a
  simp only [Finset.mem_filter, List.mem_toFinset, List.mem_dedup]
  constructor
  · intro ⟨ha, hc⟩
    have : a ∈ ids := by simpa using hc
    exact ⟨this, by simpa using ha⟩
  · intro ⟨ha, hc⟩
    have : a ∈ l := by simpa using hc
    exact ⟨this, by simpa using ha⟩

/-- C8: for every audit-delete request, a non-admin requester is rejected
with a permission error and no history row is deleted; an admin requester
with a non-empty id list deletes exactly the history rows whose ids are in
the list, and - the history ids being unique, as the table's generated
primary key guarantees - the returned count equals the number of listed
ids actually present in the table. -/
theorem C8_delete_auth (user_role : Str) (ids : List Nat)
    (hist : List VRow) (slogs : List SourceRow)
    (hnodup : (hist.map VRow.id).Nodup) :
    (user_role ≠ "admin".data →
        (delete_logs user_role ids hist slogs).response
          = Except.error PERMISSION_DENIED ∧
        (delete_logs user_role ids hist slogs).hist = hist) ∧
    (user_role = "admin".data → ids ≠ [] →
        (delete_logs user_role ids hist slogs).hist
          = hist.filter (fun r => !ids.contains r.id) ∧
        (delete_logs user_role ids hist slogs).response
          = Except.ok (((ids.dedup).filter
              (fun i => (hist.map VRow.id).contains i)).length)) := by
  constructor
  · intro hrole
    simp [delete_logs, hrole]
  · intro hrole hids
    have hcount : (hist.filter (fun r => ids.contains r.id)).length
        = ((ids.dedup).filter (fun i => (hist.map VRow.id).contains i)).length := by
      rw [← length_filter_contains ids (hist.map VRow.id) hnodup, List.filter_map,
        List.length_map]
      rfl
    have h1 : ¬ (user_role ≠ "admin".data) := by simp [hrole]
    unfold delete_logs
    rw [if_neg h1, if_neg hids]
    exact ⟨rfl, congrArg Except.ok hcount⟩

/-- C8 witness: `C8_delete_auth` at a concrete two-row table - a rejected
standard-role request, and an admin request deleting row 1 (id 3 is not
present, so the count is 1). -/
theorem C8_witness :
    ((delete_logs "standard".data [1, 3]
        [⟨1, ⟨"anonymous".data, "c1".data, "TRUE".data, "London".data, "UK".data, "standard".data⟩⟩,
          ⟨2, ⟨"anonymous".data, "c2".data, "FALSE".data, "Mumbai".data, "India".data, "admin".data⟩⟩]
        []).hist.length = 2) ∧
    ((delete_logs "admin".data [1, 3]
        [⟨1, ⟨"anonymous".data, "c1".data, "TRUE".data, "London".data, "UK".data, "standard".data⟩⟩,
          ⟨2, ⟨"anonymous".data, "c2".data, "FALSE".data, "Mumbai".data, "India".data, "admin".data⟩⟩]
        []).response = Except.ok 1) := by
  constructor
  · rw [((C8_delete_auth "standard".data [1, 3]
      [⟨1, ⟨"anonymous".data, "c1".data, "TRUE".data, "London".data, "UK".data, "standard".data⟩⟩,
        ⟨2, ⟨"anonymous".data, "c2".data, "FALSE".data, "Mumbai".data, "India".data, "admin".data⟩⟩]
      [] (by decide)).1 (by decide)).2]
    rfl
  · rw [((C8_delete_auth "admin".data [1, 3]
      [⟨1, ⟨"anonymous".data, "c1".data, "TRUE".data, "London".data, "UK".data, "standard".data⟩⟩,
        ⟨2, ⟨"anonymous".data, "c2".data, "FALSE".data, "Mumbai".data, "India".data, "admin".data⟩⟩]
      [] (by decide)).2 rfl (by decide)).2]
    exact congrArg Except.ok (by decide)

/-- C10: for every audit-delete invocation, with any requester role and
any id list, the `source_logs` table is unchanged: every
`SourceLogEntry` row present before the call is still present after it,
even when the `verification_history` rows it references via `claim_id`
have been deleted (the listed ids are gone from the history table), so
such rows remain as orphans. -/
theorem C10_slogs_frame (user_role : Str) (ids : List Nat)
    (hist : List VRow) (slogs : List SourceRow) :
    (delete_logs user_role ids hist slogs).slogs = slogs ∧
    (∀ r ∈ slogs, r ∈ (delete_logs user_role ids hist slogs).slogs) ∧
    (user_role = "admin".data → ids ≠ [] →
        ∀ r ∈ (delete_logs user_role ids hist slogs).hist, ¬ r.id ∈ ids) := by
  have hframe : (delete_logs user_role ids hist slogs).slogs = slogs := by
    unfold delete_logs
    split
    · rfl
    · split <;> rfl
  refine ⟨hframe, by intro r hr; rw [hframe]; exact hr, ?_⟩
  intro hrole hids r hr hrid
  have h1 : ¬ (user_role ≠ "admin".data) := by simp [hrole]
  unfold delete_logs at hr
  rw [if_neg h1, if_neg hids] at hr
  have hf := List.of_mem_filter hr
  have hc : ids.contains r.id = false := by simpa using hf
  have hc' : ids.contains r.id = true := by simpa using hrid
  rw [hc] at hc'
  exact Bool.false_ne_true hc'

/-- C10 witness: `C10_slogs_frame` at an admin delete of history row 1
whose child source-log row survives as an orphan. -/
theorem C10_witness :
    ⟨1, "External Web".data, "DuckDuckGo/Search Engine".data, "TRUE".data⟩ ∈
      (delete_logs "admin".data [1]
        [⟨1, ⟨"anonymous".data, "c1".data, "TRUE".data, "London".data, "UK".data, "standard".data⟩⟩]
        [⟨1, "External Web".data, "DuckDuckGo/Search Engine".data, "TRUE".data⟩]).slogs :=
  (C10_slogs_frame "admin".data [1]
      [⟨1, ⟨"anonymous".data, "c1".data, "TRUE".data, "London".data, "UK".data, "standard".data⟩⟩]
      [⟨1, "External Web".data, "DuckDuckGo/Search Engine".data, "TRUE".data⟩]).2.1
    ⟨1, "External Web".data, "DuckDuckGo/Search Engine".data, "TRUE".data⟩ (by decide)

/-! The orchestrator: the LangGraph state machine built in `app/agent.py`
(lines 432-468) with entry `start`, edges
`start -> pre_processor`, `pre_processor -> (db_analyst | researcher)`
via `router_to_db`, `db_analyst -> (reporter | researcher)` via
`router_after_db`, `researcher -> skeptic`,
`skeptic -> (reporter | researcher)` on `is_verified`, and
`reporter -> END`.  The shared state is `SatyaMitraState`; the `messages`
channel is an `operator.add` accumulator, so a node returning the current
list appends a second copy (as `start_node` and `pre_processor_node`
do). -/

structure AgentState where
  messages : List Str
  revision_count : Nat
  is_verified : Bool
  input_type : Str
  image_data : Option Str
  domain_status : Option Str
  claim_text : Str
  user_role : Str
deriving DecidableEq

inductive Node where
  | start
  | preProcessor
  | dbAnalyst
  | researcher
  | skeptic
  | reporter
  | finished
deriving DecidableEq

/-- The durable store shared by the pipeline: the reputation table, the
verification history and the source logs. -/
structure World where
  db : RepDB
  hist : List HistoryRow
  slogs : List SourceRow
deriving DecidableEq

structure RunState where
  st : AgentState
  world : World
  node : Node
  aborted : Bool
deriving DecidableEq

/-- The external collaborators of one run, indexed where a provider is
called once per research pass (`research`/`decision` are indexed by the
`revision_count` at the time of the call, which is 0 for the first pass
and 1 for the retry). -/
structure Oracle where
  scrapeOk : Bool
  extraction : Str
  research : Nat → Str
  decision : Nat → Str
  report : Str
  origin : Str × Str
  insertOk : Bool

/-- `router_to_db` (`app/agent.py` lines 417-421). -/
def router_to_db (inputType : Str) : Node :=
  if inputType == "url".data then Node.dbAnalyst else Node.researcher

/-- `router_after_db` (`app/agent.py` lines 424-428). -/
def router_after_db (ds : Option Str) : Node :=
  if dsMatch ds then Node.reporter else Node.researcher

/-- One node execution of the graph.  `start_node` and
`pre_processor_node` return the current `messages`, which the
`operator.add` channel appends to itself; `db_analyst_node` consults the
reputation cache only for url inputs and reads the original input from
`messages[0]`; `researcher_node` appends the synthesized research;
`skeptic_node` appends its message and sets `is_verified` and
`revision_count`; `reporter_node` writes the store and appends the report
(or aborts when its unguarded insert raises). -/
def stepRun (o : Oracle) (rs : RunState) : RunState :=
  match rs.node with
  | Node.start =>
    { rs with st := { rs.st with messages := rs.st.messages ++ rs.st.messages },
              node := Node.preProcessor }
  | Node.preProcessor =>
    let s := rs.st
    let inputText := s.messages.getLastD []
    { rs with
      st := { s with
        messages := s.messages ++ s.messages,
        claim_text := pre_processor_claim o.scrapeOk o.extraction inputText s.input_type,
        domain_status := none },
      node := router_to_db s.input_type }
  | Node.dbAnalyst =>
    let s := rs.st
    let ds := if s.input_type == "url".data then
        check_internal_db rs.world.db (s.messages.headD [])
      else none
    { rs with st := { s with domain_status := ds }, node := router_after_db ds }
  | Node.researcher =>
    let s := rs.st
    { rs with st := { s with messages := s.messages ++ [o.research s.revision_count] },
              node := Node.skeptic }
  | Node.skeptic =>
    let s := rs.st
    let r := skeptic_node s.domain_status (o.decision s.revision_count) s.revision_count
    { rs with
      st := { s with messages := s.messages ++ [r.2.2],
                     is_verified := r.1, revision_count := r.2.1 },
      node := if r.1 then Node.reporter else Node.researcher }
  | Node.reporter =>
    let s := rs.st
    let out := reporter_node s.input_type s.user_role (s.messages.headD [])
      s.claim_text o.report o.origin o.insertOk rs.world.db rs.world.hist rs.world.slogs
    match out.result with
    | none =>
      { rs with world := ⟨out.db, out.hist, out.slogs⟩, node := Node.finished,
                aborted := true }
    | some msg =>
      { rs with st := { s with messages := s.messages ++ [msg] },
                world := ⟨out.db, out.hist, out.slogs⟩, node := Node.finished }
  | Node.finished => rs

/-- Drive the graph for at most `fuel` steps, recording for each executed
node the agent state it produced.  The longest possible path
(start, pre_processor, db_analyst, researcher, skeptic, researcher,
skeptic, reporter) has 8 steps, so fuel 10 always reaches `finished`. -/
def runAux (o : Oracle) : Nat → RunState → List (Node × AgentState) →
    RunState × List (Node × AgentState)
  | 0, rs, acc => (rs, acc.reverse)
  | Nat.succ n, rs, acc =>
    match rs.node with
    | Node.finished => (rs, acc.reverse)
    | _ => runAux o n (stepRun o rs) ((rs.node, (stepRun o rs).st) :: acc)

/-- The initial state built by `verify_news` in `app/server.py` (lines
79-87): one user message, `revision_count = 0`, `is_verified = False`. -/
def initAgent (input inputType role : Str) (img : Option Str) : AgentState :=
  { messages := [input], revision_count := 0, is_verified := false,
    input_type := inputType, image_data := img, domain_status := none,
    claim_text := [], user_role := role }

/-- One full verification run: final run state plus the trace of executed
nodes with the agent state each produced. -/
def runVerify (o : Oracle) (input inputType role : Str) (w : World) :
    RunState × List (Node × AgentState) :=
  runAux o 10 ⟨initAgent input inputType role none, w, Node.start, false⟩ []

theorem leadsWith_append (p t : Str) : leadsWith p (p ++ t) = true := by
  induction p with
  | nil => rfl
  | cons c p' ih => simp [leadsWith, ih]

theorem containsSub_of_leadsWith {p s : Str} (h : leadsWith p s = true) :
    containsSub p s = true := by
  unfold containsSub findSplit
  cases s with
  | nil => simp [h]
  | cons c rest => simp [h]

/-- The sentence formatted by `check_internal_db` always passes the
cache-hit test of `router_after_db` and `skeptic_node`. -/
theorem dsMatch_recordMessage (d : Str) (rec : RepRecord) :
    dsMatch (some (recordMessage d rec)) = true := by
  have hmsg : recordMessage d rec
      = "INTERNAL RECORD FOUND".data ++ (": ".data ++ d
          ++ (" is confirmed as **".data ++ rec.status ++ ("** (Confidence: ".data
          ++ (Nat.repr rec.confidence).data ++ "%).".data))) := by
    unfold recordMessage
    have h1 : "INTERNAL RECORD FOUND: ".data
        = "INTERNAL RECORD FOUND".data ++ ": ".data := by decide
    rw [h1]
    simp [List.append_assoc]
  have h2 : containsSub "INTERNAL RECORD FOUND".data
      ("INTERNAL RECORD FOUND".data ++ (": ".data ++ d
        ++ (" is confirmed as **".data ++ rec.status ++ ("** (Confidence: ".data
        ++ (Nat.repr rec.confidence).data ++ "%).".data)))) = true :=
    containsSub_of_leadsWith (leadsWith_append _ _)
  show (!(recordMessage d rec).isEmpty
      && containsSub "INTERNAL RECORD FOUND".data (recordMessage d rec)) = true
  rw [hmsg, h2]
  rfl

theorem runAux_finish (o : Oracle) (fuel : Nat) (rs : RunState)
    (acc : List (Node × AgentState)) (h : rs.node = Node.finished) :
    runAux o fuel rs acc = (rs, acc.reverse) := by
  cases fuel with
  | zero => rfl
  | succ n =>
    simp only [runAux]
    rw [h]

theorem runAux_go (o : Oracle) (n : Nat) (rs : RunState)
    (acc : List (Node × AgentState)) (h : rs.node ≠ Node.finished) :
    runAux o (Nat.succ n) rs acc
      = runAux o n (stepRun o rs) ((rs.node, (stepRun o rs).st) :: acc) := by
  simp only [runAux]

theorem skeptic_node_rc_le (ds : Option Str) (d : Str) (rc : Nat) (h : rc ≤ 1) :
    (skeptic_node ds d rc).2.1 ≤ 1 := by
  cases h1 : dsMatch ds
  · cases h2 : (leadsWith "REJECTED".data (pyStrip d) && decide (rc < 1))
    · have hv : (skeptic_node ds d rc).2.1 = rc := by
        simp only [skeptic_node, h1, Bool.false_eq_true, if_false]
        rw [if_neg]
        intro hc
        rw [h2] at hc
        exact Bool.false_ne_true hc
      rw [hv]
      exact h
    · have hlt : rc < 1 := of_decide_eq_true (Bool.and_elim_right h2)
      have hv : (skeptic_node ds d rc).2.1 = rc + 1 := by
        simp only [skeptic_node, h1, Bool.false_eq_true, if_false]
        rw [if_pos h2]
      rw [hv]
      omega
  · simp [skeptic_node, h1, h]

theorem stepRun_rc_le (o : Oracle) (rs : RunState)
    (h : rs.st.revision_count ≤ 1) : (stepRun o rs).st.revision_count ≤ 1 := by
  obtain ⟨st, world, node, ab⟩ := rs
  have h' : st.revision_count ≤ 1 := h
  cases node
  case start => simpa using h'
  case preProcessor => simpa using h'
  case dbAnalyst => simpa using h'
  case researcher => simpa using h'
  case skeptic =>
    simpa using (skeptic_node_rc_le st.domain_status
      (o.decision st.revision_count) st.revision_count h')
  case reporter =>
    simp only [stepRun]
    split <;> simpa using h'
  case finished => simpa using h'

theorem runAux_rc_inv (o : Oracle) : ∀ (fuel : Nat) (rs : RunState)
    (acc : List (Node × AgentState)),
    rs.st.revision_count ≤ 1 → (∀ e ∈ acc, e.2.revision_count ≤ 1) →
    ∀ e ∈ (runAux o fuel rs acc).2, e.2.revision_count ≤ 1 := by
  intro fuel
  induction fuel with
  | zero =>
    intro rs acc _ hacc e he
    simp only [runAux, List.mem_reverse] at he
    exact hacc e he
  | succ n ih =>
    intro rs acc hrs hacc e he
    by_cases hn : rs.node = Node.finished
    · rw [runAux_finish o _ rs acc hn] at he
      simp only [List.mem_reverse] at he
      exact hacc e he
    · rw [runAux_go o n rs acc hn] at he
      refine ih (stepRun o rs) _ (stepRun_rc_le o rs hrs) ?_ e he
      intro e' he'
      rcases List.mem_cons.mp he' with h1 | h2
      · rw [h1]
        exact stepRun_rc_le o rs hrs
      · exact hacc e' h2

/-- C2: for every verification run - any oracle, input, input type, role
and store - `revision_count` starts at 0 and never exceeds 1 in any state
produced by any step of the run: the Critique Loop increments it at most
once, so at most one research retry ever occurs. -/
theorem C2_revision_bound (o : Oracle) (input inputType role : Str) (w : World) :
    (initAgent input inputType role none).revision_count = 0 ∧
    ∀ e ∈ (runVerify o input inputType role w).2, e.2.revision_count ≤ 1 := by
  refine ⟨rfl, ?_⟩
  refine runAux_rc_inv o 10 _ [] ?_ (by intro e he; cases he)
  show (0 : Nat) ≤ 1
  omega

/-- Concrete fixtures for the C2 witness. -/
def c2Oracle : Oracle :=
  { scrapeOk := true, extraction := "ex".data,
    research := fun _ => "research summary".data,
    decision := fun _ => "APPROVED".data,
    report := "**Verdict:** FALSE".data,
    origin := ("Mumbai".data, "India".data), insertOk := true }

/-- C2 witness: `C2_revision_bound` applied to a concrete text-type run,
at the first recorded state of its trace. -/
theorem C2_witness :
    ((runVerify c2Oracle "The moon landing was faked".data "text".data "standard".data
        ⟨[], [], []⟩).2.headD (Node.start, initAgent [] [] [] none)).2.revision_count ≤ 1 :=
  (C2_revision_bound c2Oracle "The moon landing was faked".data "text".data "standard".data
      ⟨[], [], []⟩).2 _ (by decide)

/-- Concrete fixtures for the C1 counterexample: a reputation store that
holds a record for `example.com`. -/
def c1Oracle : Oracle :=
  { scrapeOk := true, extraction := "cached claim".data,
    research := fun _ => "research summary".data,
    decision := fun _ => "APPROVED".data,
    report := "**Verdict:** TRUE".data,
    origin := ("London".data, "UK".data), insertOk := true }

def c1World : World := ⟨[("example.com".data, ⟨"TRUSTED".data, 90⟩)], [], []⟩

/-- C1 counterexample: a URL-type run over a store that yields a
reputation-cache hit for the input.  The run does bypass the Evidence
Gatherer and the Critique Loop (no researcher or skeptic step in the
trace) and reaches the Verdict Reporter, but it ends with
`is_verified = false`: the claimed `isVerified = true` is wrong, because
the skeptic's auto-approval (the only code that would set the flag on a
hit) is never executed on this path - `router_after_db` routes
`db_analyst` straight to `reporter`. -/
theorem C1_counterexample :
    dbLookup c1World.db (normDomain "https://example.com".data)
      = some ⟨"TRUSTED".data, 90⟩ ∧
    (∀ e ∈ (runVerify c1Oracle "https://example.com".data "url".data "standard".data
        c1World).2, e.1 ≠ Node.researcher ∧ e.1 ≠ Node.skeptic) ∧
    Node.reporter ∈ ((runVerify c1Oracle "https://example.com".data "url".data
        "standard".data c1World).2.map Prod.fst) ∧
    (runVerify c1Oracle "https://example.com".data "url".data "standard".data
        c1World).1.st.is_verified = false := by decide

/-- C1 (amended): for every verification run with `inputType = url` for
which the reputation-cache lookup returns a record (a cache hit), the run
proceeds directly to the Verdict Reporter - the Evidence Gatherer
(researcher) and the Critique Loop (skeptic) are never invoked - and the
run ends with `isVerified = false`, its initial value: the Critique Loop,
the only writer of the flag, is bypassed on this path, so the hit is
auto-approved by routing rather than by setting `isVerified`. -/
theorem C1_amended (o : Oracle) (input role : Str) (w : World) (rec : RepRecord)
    (hhit : dbLookup w.db (normDomain input) = some rec) :
    (∀ e ∈ (runVerify o input "url".data role w).2,
        e.1 ≠ Node.researcher ∧ e.1 ≠ Node.skeptic) ∧
    Node.reporter ∈ ((runVerify o input "url".data role w).2.map Prod.fst) ∧
    (runVerify o input "url".data role w).1.st.is_verified = false := by
  have key : (runVerify o input "url".data role w).2.map Prod.fst
        = [Node.start, Node.preProcessor, Node.dbAnalyst, Node.reporter] ∧
      (runVerify o input "url".data role w).1.st.is_verified = false := by
    unfold runVerify
    rw [show (10 : Nat) = Nat.succ 9 from rfl, runAux_go o 9]
    · simp only [stepRun, initAgent, router_to_db, List.singleton_append]
      rw [show (9 : Nat) = Nat.succ 8 from rfl, runAux_go o 8]
      · simp only [stepRun, router_to_db, beq_self_eq_true, if_true,
          List.cons_append, List.nil_append, List.singleton_append,
          List.getLastD_cons, List.getLastD_nil]
        rw [show (8 : Nat) = Nat.succ 7 from rfl, runAux_go o 7]
        · simp only [stepRun, beq_self_eq_true, if_true, List.headD_cons,
            check_internal_db, hhit, Option.map_some', router_after_db,
            dsMatch_recordMessage]
          rw [show (7 : Nat) = Nat.succ 6 from rfl, runAux_go o 6]
          · simp only [stepRun, List.headD_cons]
            cases hres : (reporter_node "url".data role input
                (pre_processor_claim o.scrapeOk o.extraction input "url".data)
                o.report o.origin o.insertOk w.db w.hist w.slogs).result with
            | none =>
              rw [runAux_finish o 6 _ _ rfl]
              simp
            | some msg =>
              rw [runAux_finish o 6 _ _ rfl]
              simp
          · simp
        · simp
      · simp
    · simp
  refine ⟨?_, ?_, key.2⟩
  · intro e he
    have hmem : e.1 ∈ (runVerify o input "url".data role w).2.map Prod.fst :=
      List.mem_map_of_mem Prod.fst he
    rw [key.1] at hmem
    simp only [List.mem_cons, List.not_mem_nil, or_false] at hmem
    rcases hmem with h | h | h | h <;> rw [h] <;> exact ⟨by simp, by simp⟩
  · rw [key.1]
    simp

/-- Concrete store for the C1 witness. -/
def c1wWorld : World := ⟨[("bbc.com".data, ⟨"TRUSTED".data, 95⟩)], [], []⟩

/-- C1 witness: `C1_amended` applied at a concrete URL-type run over a
store holding a record for the input domain. -/
theorem C1_witness :
    (∀ e ∈ (runVerify c1Oracle "https://www.bbc.com/news".data "url".data "admin".data
        c1wWorld).2, e.1 ≠ Node.researcher ∧ e.1 ≠ Node.skeptic) ∧
    (runVerify c1Oracle "https://www.bbc.com/news".data "url".data "admin".data
        c1wWorld).1.st.is_verified = false :=
  have h := C1_amended c1Oracle "https://www.bbc.com/news".data "admin".data c1wWorld
    ⟨"TRUSTED".data, 95⟩ (by decide)
  ⟨h.1, h.2.2⟩

end SatyaMitra
